import Mathlib

/-!
Verification of the Action Governance & Session-State subsystem of mcp-assist.

The definitions below are a shallow embedding of three Python modules:
* `custom_components/mcp_assist_dev/domain_registry.py`
* `custom_components/mcp_assist_dev/conversation_history.py`
* `custom_components/mcp_assist/statistics.py`

Python dictionaries are embedded as insertion-ordered association lists with
unique keys, Python strings as `String`, `datetime`/`timedelta` values as `Int`
instants and durations, floats as `ℚ`, and Python list slicing `l[-n:]` by an
explicit function that reproduces the `n = 0` corner case.  Impure reads of the
clock (`datetime.now()`, `date.today()`, `time.perf_counter()`) become explicit
parameters of the embedded operations.
-/

/-- Lookup in an insertion-ordered association list, as Python `dict.get`
(first matching key wins; keys are unique in every state we build). -/
def alookup {β : Type} : List (String × β) → String → Option β
  | [], _ => none
  | (k, v) :: rest, key => if key == k then some v else alookup rest key

/-- Update a key in an association list as Python `d[k] = v`: an existing key
keeps its position, a new key is appended at the end. -/
def setKey {β : Type} : List (String × β) → String → β → List (String × β)
  | [], key, v => [(key, v)]
  | (k, w) :: rest, key, v =>
    if key == k then (key, v) :: rest else (k, w) :: setKey rest key v

/-- Remove a key from an association list, as Python `del d[k]` on a dict with
unique keys (the first binding is removed). -/
def removeKey {β : Type} : List (String × β) → String → List (String × β)
  | [], _ => []
  | (k, w) :: rest, key => if key == k then rest else (k, w) :: removeKey rest key

/-- Python list slicing `l[-n:]` for a natural `n`: the last `n` elements when
`n > 0`, but the whole list when `n = 0` (since `-0 == 0` in Python). -/
def pySliceLast {α : Type} (n : Nat) (l : List α) : List α :=
  if n = 0 then l else l.drop (l.length - n)

/-- Whether the first character list is a prefix of the second. -/
def charsPrefix : List Char → List Char → Bool
  | [], _ => true
  | _ :: _, [] => false
  | a :: as, b :: bs => a == b && charsPrefix as bs

/-- Whether the first character list occurs contiguously in the second. -/
def charsInside (needle : List Char) : List Char → Bool
  | [] => needle.isEmpty
  | c :: rest => charsPrefix needle (c :: rest) || charsInside needle rest

/-- Python substring test `sub in s` on strings. -/
def strContains (s sub : String) : Bool :=
  charsInside sub.toList s.toList

/-! ## Domain registry data (`domain_registry.py`) -/

/-- Per-service parameter specification: the `{"required": [...], "optional":
[...]}` dictionaries of `DOMAIN_REGISTRY`, with Python `.get(..., [])` defaults
made explicit. -/
structure ServiceParams where
  required : List String := []
  optional : List String := []
deriving DecidableEq

/-- One value of the `DOMAIN_REGISTRY` dictionary of `domain_registry.py`. -/
structure DomainInfo where
  type : String
  priority : Nat
  services : List String
  parameters : List (String × ServiceParams)
  error_message : Option String := none
  description : String
deriving DecidableEq

def PRIORITY_ESSENTIAL : Nat := 1
def PRIORITY_COMMON : Nat := 2
def PRIORITY_STANDARD : Nat := 3
def PRIORITY_EXTENDED : Nat := 4
def PRIORITY_SPECIALIZED : Nat := 5

def TYPE_CONTROLLABLE : String := "controllable"
def TYPE_READ_ONLY : String := "read_only"
def TYPE_SERVICE_ONLY : String := "service_only"

def light_info : DomainInfo :=
  { type := TYPE_CONTROLLABLE, priority := PRIORITY_ESSENTIAL,
    services := ["turn_on", "turn_off", "toggle"],
    parameters :=
      [("turn_on", { optional := ["transition", "brightness", "brightness_pct",
          "brightness_step", "brightness_step_pct", "rgb_color", "rgbw_color",
          "rgbww_color", "color_name", "hs_color", "xy_color", "color_temp",
          "color_temp_kelvin", "white", "profile", "flash", "effect"] }),
       ("turn_off", { optional := ["transition", "flash"] }),
       ("toggle", { optional := ["transition", "brightness", "brightness_pct",
          "rgb_color", "color_temp", "effect"] })],
    description := "Control lights with brightness, color, and effects" }

def switch_info : DomainInfo :=
  { type := TYPE_CONTROLLABLE, priority := PRIORITY_ESSENTIAL,
    services := ["turn_on", "turn_off", "toggle"],
    parameters := [],
    description := "Control binary switches" }

def cover_info : DomainInfo :=
  { type := TYPE_CONTROLLABLE, priority := PRIORITY_ESSENTIAL,
    services := ["open_cover", "close_cover", "stop_cover", "toggle",
      "set_cover_position", "open_cover_tilt", "close_cover_tilt",
      "stop_cover_tilt", "set_cover_tilt_position"],
    parameters :=
      [("set_cover_position", { required := ["position"] }),
       ("set_cover_tilt_position", { required := ["tilt_position"] })],
    description := "Control covers, blinds, and garage doors" }

def climate_info : DomainInfo :=
  { type := TYPE_CONTROLLABLE, priority := PRIORITY_ESSENTIAL,
    services := ["set_temperature", "set_hvac_mode", "set_preset_mode",
      "set_fan_mode", "set_humidity", "set_swing_mode",
      "set_swing_horizontal_mode", "turn_on", "turn_off", "toggle"],
    parameters :=
      [("set_temperature", { optional := ["temperature", "target_temp_high",
          "target_temp_low", "hvac_mode"] }),
       ("set_hvac_mode", { required := ["hvac_mode"] }),
       ("set_preset_mode", { required := ["preset_mode"] }),
       ("set_fan_mode", { required := ["fan_mode"] }),
       ("set_humidity", { required := ["humidity"] }),
       ("set_swing_mode", { required := ["swing_mode"] }),
       ("set_swing_horizontal_mode", { required := ["swing_horizontal_mode"] })],
    description := "Control thermostats and HVAC systems" }

def lock_info : DomainInfo :=
  { type := TYPE_CONTROLLABLE, priority := PRIORITY_ESSENTIAL,
    services := ["lock", "unlock", "open"],
    parameters :=
      [("lock", { optional := ["code"] }),
       ("unlock", { optional := ["code"] }),
       ("open", { optional := ["code"] })],
    description := "Control door locks" }

def scene_info : DomainInfo :=
  { type := TYPE_CONTROLLABLE, priority := PRIORITY_ESSENTIAL,
    services := ["turn_on", "reload", "apply", "create", "delete"],
    parameters :=
      [("turn_on", { optional := ["transition"] }),
       ("apply", { required := ["entities"], optional := ["transition"] }),
       ("create", { required := ["scene_id"],
                    optional := ["entities", "snapshot_entities"] })],
    description := "Activate and manage scenes" }

def script_info : DomainInfo :=
  { type := TYPE_CONTROLLABLE, priority := PRIORITY_ESSENTIAL,
    services := ["turn_on", "turn_off", "toggle", "reload"],
    parameters := [],
    description := "Execute and manage scripts" }

def automation_info : DomainInfo :=
  { type := TYPE_CONTROLLABLE, priority := PRIORITY_ESSENTIAL,
    services := ["trigger", "turn_on", "turn_off", "toggle", "reload"],
    parameters :=
      [("trigger", { optional := ["skip_condition"] }),
       ("turn_off", { optional := ["stop_actions"] })],
    description := "Control and trigger automations" }

def fan_info : DomainInfo :=
  { type := TYPE_CONTROLLABLE, priority := PRIORITY_COMMON,
    services := ["turn_on", "turn_off", "toggle", "set_percentage",
      "set_preset_mode", "oscillate", "set_direction", "increase_speed",
      "decrease_speed"],
    parameters :=
      [("turn_on", { optional := ["percentage", "preset_mode"] }),
       ("set_percentage", { required := ["percentage"] }),
       ("set_preset_mode", { required := ["preset_mode"] }),
       ("oscillate", { required := ["oscillating"] }),
       ("set_direction", { required := ["direction"] }),
       ("increase_speed", { optional := ["percentage_step"] }),
       ("decrease_speed", { optional := ["percentage_step"] })],
    description := "Control fans with speed and oscillation" }

def media_player_info : DomainInfo :=
  { type := TYPE_CONTROLLABLE, priority := PRIORITY_COMMON,
    services := ["turn_on", "turn_off", "toggle", "volume_up", "volume_down",
      "volume_set", "volume_mute", "media_play", "media_pause", "media_stop",
      "media_play_pause", "media_next_track", "media_previous_track",
      "media_seek", "play_media", "select_source", "select_sound_mode",
      "clear_playlist", "shuffle_set", "repeat_set", "join", "unjoin",
      "browse_media", "search_media"],
    parameters :=
      [("volume_set", { required := ["volume_level"] }),
       ("volume_mute", { required := ["is_volume_muted"] }),
       ("media_seek", { required := ["seek_position"] }),
       ("play_media", { required := ["media"],
                        optional := ["enqueue", "announce"] }),
       ("select_source", { required := ["source"] }),
       ("select_sound_mode", { optional := ["sound_mode"] }),
       ("shuffle_set", { required := ["shuffle"] }),
       ("repeat_set", { required := ["repeat"] }),
       ("join", { required := ["group_members"] }),
       ("browse_media", { optional := ["media_content_type",
          "media_content_id"] }),
       ("search_media", { required := ["search_query"],
                          optional := ["media_content_type",
                            "media_content_id", "media_filter_classes"] })],
    description := "Control media players and streaming devices" }

def vacuum_info : DomainInfo :=
  { type := TYPE_CONTROLLABLE, priority := PRIORITY_COMMON,
    services := ["turn_on", "turn_off", "toggle", "start", "stop", "pause",
      "start_pause", "return_to_base", "clean_spot", "locate", "send_command",
      "set_fan_speed"],
    parameters :=
      [("send_command", { required := ["command"], optional := ["params"] }),
       ("set_fan_speed", { required := ["fan_speed"] })],
    description := "Control robot vacuums" }

def alarm_control_panel_info : DomainInfo :=
  { type := TYPE_CONTROLLABLE, priority := PRIORITY_COMMON,
    services := ["alarm_disarm", "alarm_arm_home", "alarm_arm_away",
      "alarm_arm_night", "alarm_arm_vacation", "alarm_arm_custom_bypass",
      "alarm_trigger"],
    parameters :=
      [("alarm_disarm", { optional := ["code"] }),
       ("alarm_arm_home", { optional := ["code"] }),
       ("alarm_arm_away", { optional := ["code"] }),
       ("alarm_arm_night", { optional := ["code"] }),
       ("alarm_arm_vacation", { optional := ["code"] }),
       ("alarm_arm_custom_bypass", { optional := ["code"] }),
       ("alarm_trigger", { optional := ["code"] })],
    description := "Control security alarm systems" }

def camera_info : DomainInfo :=
  { type := TYPE_CONTROLLABLE, priority := PRIORITY_COMMON,
    services := ["turn_on", "turn_off", "enable_motion_detection",
      "disable_motion_detection", "snapshot", "record", "play_stream"],
    parameters :=
      [("snapshot", { required := ["filename"] }),
       ("record", { required := ["filename"],
                    optional := ["duration", "lookback"] }),
       ("play_stream", { required := ["media_player"],
                         optional := ["format"] })],
    description := "Control cameras and capture media" }

def sensor_info : DomainInfo :=
  { type := TYPE_READ_ONLY, priority := PRIORITY_COMMON,
    services := [],
    parameters := [],
    error_message := some "Sensors are read-only. Use \x27get_entity_details\x27 to read sensor values.",
    description := "Read-only numeric and string sensors" }

def binary_sensor_info : DomainInfo :=
  { type := TYPE_READ_ONLY, priority := PRIORITY_COMMON,
    services := [],
    parameters := [],
    error_message := some "Binary sensors are read-only. Use \x27get_entity_details\x27 to read sensor state.",
    description := "Read-only on/off state sensors" }

def device_tracker_info : DomainInfo :=
  { type := TYPE_CONTROLLABLE, priority := PRIORITY_COMMON,
    services := ["see"],
    parameters :=
      [("see", { optional := ["mac", "dev_id", "host_name", "location_name",
          "gps", "gps_accuracy", "battery"] })],
    description := "Track device locations" }

def input_boolean_info : DomainInfo :=
  { type := TYPE_CONTROLLABLE, priority := PRIORITY_STANDARD,
    services := ["turn_on", "turn_off", "toggle", "reload"],
    parameters := [],
    description := "Boolean input helpers" }

def input_number_info : DomainInfo :=
  { type := TYPE_CONTROLLABLE, priority := PRIORITY_STANDARD,
    services := ["set_value", "increment", "decrement", "reload"],
    parameters := [("set_value", { required := ["value"] })],
    description := "Numeric input helpers" }

def input_text_info : DomainInfo :=
  { type := TYPE_CONTROLLABLE, priority := PRIORITY_STANDARD,
    services := ["set_value", "reload"],
    parameters := [("set_value", { required := ["value"] })],
    description := "Text input helpers" }

def input_select_info : DomainInfo :=
  { type := TYPE_CONTROLLABLE, priority := PRIORITY_STANDARD,
    services := ["select_option", "select_next", "select_previous",
      "select_first", "select_last", "set_options", "reload"],
    parameters :=
      [("select_option", { required := ["option"] }),
       ("select_next", { optional := ["cycle"] }),
       ("select_previous", { optional := ["cycle"] }),
       ("set_options", { required := ["options"] })],
    description := "Dropdown selection helpers" }

def input_datetime_info : DomainInfo :=
  { type := TYPE_CONTROLLABLE, priority := PRIORITY_STANDARD,
    services := ["set_datetime", "reload"],
    parameters :=
      [("set_datetime", { optional := ["date", "time", "datetime",
          "timestamp"] })],
    description := "Date and time input helpers" }

def input_button_info : DomainInfo :=
  { type := TYPE_CONTROLLABLE, priority := PRIORITY_STANDARD,
    services := ["press", "reload"],
    parameters := [],
    description := "Button input helpers" }

def timer_info : DomainInfo :=
  { type := TYPE_CONTROLLABLE, priority := PRIORITY_STANDARD,
    services := ["start", "pause", "cancel", "finish", "change", "reload"],
    parameters :=
      [("start", { optional := ["duration"] }),
       ("change", { required := ["duration"] })],
    description := "Timer helpers" }

def counter_info : DomainInfo :=
  { type := TYPE_CONTROLLABLE, priority := PRIORITY_STANDARD,
    services := ["increment", "decrement", "reset", "set_value"],
    parameters := [("set_value", { required := ["value"] })],
    description := "Counter helpers" }

def person_info : DomainInfo :=
  { type := TYPE_CONTROLLABLE, priority := PRIORITY_STANDARD,
    services := ["reload"],
    parameters := [],
    description := "Person entities" }

def zone_info : DomainInfo :=
  { type := TYPE_CONTROLLABLE, priority := PRIORITY_STANDARD,
    services := ["reload"],
    parameters := [],
    description := "Geographic zones" }

def group_info : DomainInfo :=
  { type := TYPE_CONTROLLABLE, priority := PRIORITY_STANDARD,
    services := ["reload", "set", "remove"],
    parameters :=
      [("set", { required := ["object_id"],
                 optional := ["name", "icon", "entities", "add_entities",
                   "remove_entities", "all"] }),
       ("remove", { required := ["object_id"] })],
    description := "Entity groups" }

def select_info : DomainInfo :=
  { type := TYPE_CONTROLLABLE, priority := PRIORITY_EXTENDED,
    services := ["select_option", "select_first", "select_last", "select_next",
      "select_previous"],
    parameters :=
      [("select_option", { required := ["option"] }),
       ("select_next", { optional := ["cycle"] }),
       ("select_previous", { optional := ["cycle"] })],
    description := "Selection entities" }

def number_info : DomainInfo :=
  { type := TYPE_CONTROLLABLE, priority := PRIORITY_EXTENDED,
    services := ["set_value"],
    parameters := [("set_value", { required := ["value"] })],
    description := "Numeric control entities" }

def button_info : DomainInfo :=
  { type := TYPE_CONTROLLABLE, priority := PRIORITY_EXTENDED,
    services := ["press"],
    parameters := [],
    description := "Button entities" }

def update_info : DomainInfo :=
  { type := TYPE_CONTROLLABLE, priority := PRIORITY_EXTENDED,
    services := ["install", "skip", "clear_skipped"],
    parameters := [("install", { optional := ["version", "backup"] })],
    description := "Update entities for firmware and software" }

def text_info : DomainInfo :=
  { type := TYPE_CONTROLLABLE, priority := PRIORITY_EXTENDED,
    services := ["set_value"],
    parameters := [("set_value", { required := ["value"] })],
    description := "Text control entities" }

def date_info : DomainInfo :=
  { type := TYPE_CONTROLLABLE, priority := PRIORITY_EXTENDED,
    services := ["set_value"],
    parameters := [("set_value", { required := ["date"] })],
    description := "Date control entities" }

def time_info : DomainInfo :=
  { type := TYPE_CONTROLLABLE, priority := PRIORITY_EXTENDED,
    services := ["set_value"],
    parameters := [("set_value", { required := ["time"] })],
    description := "Time control entities" }

def datetime_info : DomainInfo :=
  { type := TYPE_CONTROLLABLE, priority := PRIORITY_EXTENDED,
    services := ["set_value"],
    parameters := [("set_value", { required := ["datetime"] })],
    description := "Date and time control entities" }

def water_heater_info : DomainInfo :=
  { type := TYPE_CONTROLLABLE, priority := PRIORITY_SPECIALIZED,
    services := ["set_temperature", "set_operation_mode", "set_away_mode",
      "turn_on", "turn_off"],
    parameters :=
      [("set_temperature", { required := ["temperature"],
                             optional := ["operation_mode"] }),
       ("set_operation_mode", { required := ["operation_mode"] }),
       ("set_away_mode", { required := ["away_mode"] })],
    description := "Control water heaters" }

def humidifier_info : DomainInfo :=
  { type := TYPE_CONTROLLABLE, priority := PRIORITY_SPECIALIZED,
    services := ["turn_on", "turn_off", "toggle", "set_mode", "set_humidity"],
    parameters :=
      [("set_mode", { required := ["mode"] }),
       ("set_humidity", { required := ["humidity"] })],
    description := "Control humidifiers and dehumidifiers" }

def siren_info : DomainInfo :=
  { type := TYPE_CONTROLLABLE, priority := PRIORITY_SPECIALIZED,
    services := ["turn_on", "turn_off", "toggle"],
    parameters :=
      [("turn_on", { optional := ["tone", "duration", "volume_level"] })],
    description := "Control alarm sirens" }

def valve_info : DomainInfo :=
  { type := TYPE_CONTROLLABLE, priority := PRIORITY_SPECIALIZED,
    services := ["open_valve", "close_valve", "set_valve_position",
      "stop_valve", "toggle"],
    parameters := [("set_valve_position", { required := ["position"] })],
    description := "Control water and gas valves" }

def lawn_mower_info : DomainInfo :=
  { type := TYPE_CONTROLLABLE, priority := PRIORITY_SPECIALIZED,
    services := ["start_mowing", "pause", "dock"],
    parameters := [],
    description := "Control robotic lawn mowers" }

def weather_info : DomainInfo :=
  { type := TYPE_READ_ONLY, priority := PRIORITY_SPECIALIZED,
    services := ["get_forecast", "get_forecasts"],
    parameters :=
      [("get_forecast", { required := ["type"] }),
       ("get_forecasts", { required := ["type"] })],
    description := "Weather information and forecasts" }

def sun_info : DomainInfo :=
  { type := TYPE_READ_ONLY, priority := PRIORITY_SPECIALIZED,
    services := [],
    parameters := [],
    error_message := some "Sun is a system entity providing sunrise/sunset times. Use \x27get_entity_details\x27 to read values.",
    description := "Solar position and sunrise/sunset times" }

def notify_info : DomainInfo :=
  { type := TYPE_SERVICE_ONLY, priority := PRIORITY_SPECIALIZED,
    services := ["notify", "send_message", "persistent_notification"],
    parameters :=
      [("notify", { required := ["message"],
                    optional := ["title", "target", "data"] }),
       ("send_message", { required := ["message"], optional := ["title"] }),
       ("persistent_notification", { required := ["message"],
                                     optional := ["title", "data"] })],
    description := "Send notifications to devices and services" }

def tts_info : DomainInfo :=
  { type := TYPE_SERVICE_ONLY, priority := PRIORITY_SPECIALIZED,
    services := ["speak", "say", "clear_cache"],
    parameters :=
      [("speak", { required := ["media_player_entity_id", "message"],
                   optional := ["cache", "language", "options"] }),
       ("say", { required := ["entity_id", "message"],
                 optional := ["cache", "language", "options"] })],
    description := "Text-to-speech services" }

def persistent_notification_info : DomainInfo :=
  { type := TYPE_SERVICE_ONLY, priority := PRIORITY_SPECIALIZED,
    services := ["create", "dismiss", "mark_read"],
    parameters :=
      [("create", { required := ["message"],
                    optional := ["title", "notification_id"] }),
       ("dismiss", { required := ["notification_id"] }),
       ("mark_read", { required := ["notification_id"] })],
    description := "Create persistent UI notifications" }

/-- The `DOMAIN_REGISTRY` dictionary of `domain_registry.py`, in source
(insertion) order. -/
def DOMAIN_REGISTRY : List (String × DomainInfo) :=
  [("light", light_info),
   ("switch", switch_info),
   ("cover", cover_info),
   ("climate", climate_info),
   ("lock", lock_info),
   ("scene", scene_info),
   ("script", script_info),
   ("automation", automation_info),
   ("fan", fan_info),
   ("media_player", media_player_info),
   ("vacuum", vacuum_info),
   ("alarm_control_panel", alarm_control_panel_info),
   ("camera", camera_info),
   ("sensor", sensor_info),
   ("binary_sensor", binary_sensor_info),
   ("device_tracker", device_tracker_info),
   ("input_boolean", input_boolean_info),
   ("input_number", input_number_info),
   ("input_text", input_text_info),
   ("input_select", input_select_info),
   ("input_datetime", input_datetime_info),
   ("input_button", input_button_info),
   ("timer", timer_info),
   ("counter", counter_info),
   ("person", person_info),
   ("zone", zone_info),
   ("group", group_info),
   ("select", select_info),
   ("number", number_info),
   ("button", button_info),
   ("update", update_info),
   ("text", text_info),
   ("date", date_info),
   ("time", time_info),
   ("datetime", datetime_info),
   ("water_heater", water_heater_info),
   ("humidifier", humidifier_info),
   ("siren", siren_info),
   ("valve", valve_info),
   ("lawn_mower", lawn_mower_info),
   ("weather", weather_info),
   ("sun", sun_info),
   ("notify", notify_info),
   ("tts", tts_info),
   ("persistent_notification", persistent_notification_info)]

/-- The `ACTION_ALIASES` dictionary of `domain_registry.py`, in source order. -/
def ACTION_ALIASES : List (String × String) :=
  [("activate", "turn_on"),
   ("deactivate", "turn_off"),
   ("enable", "turn_on"),
   ("disable", "turn_off"),
   ("start", "turn_on"),
   ("stop", "turn_off"),
   ("secure", "lock"),
   ("unsecure", "unlock"),
   ("open", "open_cover"),
   ("close", "close_cover"),
   ("raise", "open_cover"),
   ("lower", "close_cover"),
   ("play", "media_play"),
   ("pause", "media_pause"),
   ("next", "media_next_track"),
   ("previous", "media_previous_track"),
   ("mute", "volume_mute"),
   ("heat", "set_hvac_mode"),
   ("cool", "set_hvac_mode"),
   ("clean", "start"),
   ("dock", "return_to_base"),
   ("home", "return_to_base")]

/-! ## Domain registry functions (`domain_registry.py`) -/

/-- `get_domain_info`: `DOMAIN_REGISTRY.get(domain)`. -/
def get_domain_info (domain : String) : Option DomainInfo :=
  alookup DOMAIN_REGISTRY domain

/-- The alias-resolution tail of `map_action_to_service`: global
`ACTION_ALIASES` first, then the domain-specific mappings for `cover`, `lock`
and `vacuum`, else the action unchanged. -/
def resolveAlias (domain action : String) : String :=
  match alookup ACTION_ALIASES action with
  | some canonical => canonical
  | none =>
    if domain == "cover" then
      if action == "raise" || action == "lift" then "open_cover"
      else if action == "lower" || action == "drop" then "close_cover"
      else action
    else if domain == "lock" then
      if action == "secure" then "lock"
      else if action == "unsecure" then "unlock"
      else action
    else if domain == "vacuum" then
      if action == "clean" then "start"
      else if action == "dock" || action == "home" then "return_to_base"
      else action
    else action

/-- `map_action_to_service`: return the action unchanged when it is already a
valid service of the domain, otherwise resolve aliases. -/
def map_action_to_service (domain action : String) : String :=
  match get_domain_info domain with
  | some info =>
    if info.services.contains action then action
    else resolveAlias domain action
  | none => resolveAlias domain action

/-- `similar = [d for d in DOMAIN_REGISTRY.keys() if domain in d or d in domain]`
from `validate_domain_action`. -/
def domain_suggestions (domain : String) : List String :=
  (DOMAIN_REGISTRY.map Prod.fst).filter
    (fun d => strContains d domain || strContains domain d)

/-- `validate_domain_action`: `(is_valid, service_name_or_error_message)`. -/
def validate_domain_action (domain action : String) : Bool × String :=
  match get_domain_info domain with
  | none =>
    let similar := domain_suggestions domain
    if similar.isEmpty then
      (false, "Domain \x27" ++ domain ++ "\x27 not supported. Use \x27list_domains\x27 to see available domains.")
    else
      (false, "Domain \x27" ++ domain ++ "\x27 not supported. Did you mean: " ++ String.intercalate ", " (similar.take 3) ++ "?")
  | some info =>
    if info.type == TYPE_READ_ONLY then
      (false, info.error_message.getD ("Domain \x27" ++ domain ++ "\x27 is read-only. Use \x27get_entity_details\x27 to read values."))
    else
      let service := map_action_to_service domain action
      if info.services.contains service then
        (true, service)
      else if info.services.isEmpty then
        (false, "Domain \x27" ++ domain ++ "\x27 has no available services")
      else
        (false, "Action \x27" ++ action ++ "\x27 not valid for " ++ domain ++ ". Available: " ++ String.intercalate ", " (info.services.take 5))

/-- `get_service_parameters`: required/optional parameter names for a service,
empty when the domain or the service entry is absent. -/
def get_service_parameters (domain service : String) : ServiceParams :=
  match get_domain_info domain with
  | none => { required := [], optional := [] }
  | some info =>
    match alookup info.parameters service with
    | none => { required := [], optional := [] }
    | some params => { required := params.required, optional := params.optional }

/-- The error message built by `validate_service_parameters` for a non-empty
list of missing required parameter names. -/
def missingParamsMsg (domain service : String) (missing : List String) : String :=
  "Missing required parameters for " ++ domain ++ "." ++ service ++ ": " ++ String.intercalate ", " missing

/-- `validate_service_parameters`: a provided-parameter mapping is embedded as
the list of its keys (only key membership is consulted by the source). -/
def validate_service_parameters (domain service : String)
    (provided_params : List String) : Bool × String :=
  let params_info := get_service_parameters domain service
  let missing := params_info.required.filter (fun p => !provided_params.contains p)
  if !missing.isEmpty then
    (false, missingParamsMsg domain service missing)
  else
    (true, "Parameters valid")

/-! ## Conversation history (`conversation_history.py`) -/

/-- One element of a turn's `actions` list; `intent` and `entity_ids` default
to the values Python's `.get` defaults produce when the key is absent. -/
structure ActionRecord where
  type : String
  intent : String := ""
  entity_ids : List String := []
deriving DecidableEq

/-- One conversation turn, as built by `add_turn`; the timestamp is an `Int`
instant. -/
structure Turn where
  timestamp : Int
  user : String
  assistant : String
  actions : List ActionRecord
deriving DecidableEq

/-- The `ConversationHistory` manager: configuration plus the
`_conversations` dict (insertion-ordered, unique keys). -/
structure ConversationHistory where
  max_history_age : Int
  max_turns : Nat
  conversations : List (String × List Turn)
deriving DecidableEq

/-- The turn-list transformation inside `_cleanup_conversation`: drop turns at
or beyond the age cutoff, then trim to the last `max_turns` via Python slicing
`conversation[-max_turns:]`. -/
def prune (h : ConversationHistory) (now : Int) (conversation : List Turn) :
    List Turn :=
  let kept := conversation.filter
    (fun t => decide (now - h.max_history_age < t.timestamp))
  if h.max_turns < kept.length then pySliceLast h.max_turns kept else kept

/-- `_cleanup_conversation`: prune the identified turn list, then delete the
conversation entirely when nothing remains. -/
def cleanup_conversation (h : ConversationHistory) (conversation_id : String)
    (now : Int) : ConversationHistory :=
  match alookup h.conversations conversation_id with
  | none => h
  | some conversation =>
    let kept2 := prune h now conversation
    if kept2.isEmpty then
      { h with conversations := removeKey h.conversations conversation_id }
    else
      { h with conversations := setKey h.conversations conversation_id kept2 }

/-- `add_turn`: append a turn timestamped `now` (creating the conversation
when absent, at the end of the dict), then run the cleanup pass. -/
def add_turn (h : ConversationHistory) (conversation_id : String) (now : Int)
    (user_message assistant_message : String) (actions : List ActionRecord) :
    ConversationHistory :=
  let prev := (alookup h.conversations conversation_id).getD []
  let turn : Turn :=
    { timestamp := now, user := user_message, assistant := assistant_message,
      actions := actions }
  let h2 : ConversationHistory :=
    { h with conversations := setKey h.conversations conversation_id (prev ++ [turn]) }
  cleanup_conversation h2 conversation_id now

/-- The turn record `add_turn` constructs. -/
def mkTurn (now : Int) (user_message assistant_message : String)
    (actions : List ActionRecord) : Turn :=
  { timestamp := now, user := user_message, assistant := assistant_message,
    actions := actions }

/-- The intermediate store inside `add_turn`, after the append and before the
cleanup pass. -/
def withTurn (h : ConversationHistory) (conversation_id : String) (now : Int)
    (user_message assistant_message : String) (actions : List ActionRecord) :
    ConversationHistory :=
  { h with
    conversations := setKey h.conversations conversation_id
      (((alookup h.conversations conversation_id).getD []) ++
        [mkTurn now user_message assistant_message actions]) }

/-- `get_history`: `some []` for an unknown id; otherwise run the cleanup pass
and return the surviving list — a `none` result embeds the `KeyError` the
Python code raises when the cleanup deleted the conversation just before the
final `self._conversations[conversation_id]` access. -/
def get_history (h : ConversationHistory) (conversation_id : String)
    (now : Int) : Option (List Turn) × ConversationHistory :=
  match alookup h.conversations conversation_id with
  | none => (some [], h)
  | some _ =>
    let h2 := cleanup_conversation h conversation_id now
    (alookup h2.conversations conversation_id, h2)

/-- The per-action summary phrase built inside `get_recent_context`
(`Executed ... on ...` / `Referenced entities: ...`), `none` for an action of
any other type. -/
def renderActionSummary (a : ActionRecord) : Option String :=
  if a.type == "intent_executed" then
    some ("Executed " ++ a.intent ++ " on " ++ String.intercalate ", " a.entity_ids)
  else if a.type == "entities_mentioned" then
    some ("Referenced entities: " ++ String.intercalate ", " a.entity_ids)
  else none

/-- The lines `get_recent_context` appends for one turn: user and assistant
lines, plus an `Actions:` line when the turn has actions and at least one of
them produces a summary phrase. -/
def renderTurnLines (t : Turn) : List String :=
  let base := ["User: " ++ t.user, "Assistant: " ++ t.assistant]
  if t.actions.isEmpty then base
  else
    let summary := t.actions.filterMap renderActionSummary
    if summary.isEmpty then base
    else base ++ ["Actions: " ++ String.intercalate "; " summary]

/-- `get_recent_context`: format the last turns of the (evicted) history; the
first output component is `none` when the underlying `get_history` call raises
`KeyError`. -/
def get_recent_context (h : ConversationHistory) (conversation_id : String)
    (now : Int) (max_turns : Nat) : Option String × ConversationHistory :=
  match get_history h conversation_id now with
  | (none, h2) => (none, h2)
  | (some history, h2) =>
    if history.isEmpty then (some "", h2)
    else
      let recent := if max_turns < history.length then pySliceLast max_turns history
        else history
      (some (String.intercalate "\n"
        ("Recent conversation:" :: (recent.map renderTurnLines).flatten)), h2)

/-! ## Statistics aggregator (`statistics.py`) -/

/-- The mutable state of `MCPAssistStatistics` together with its embedded
`ResponseTimeTracker` (the two `deque(maxlen=100)` buffers and last values).
Listener callbacks are external side effects and carry no recorded state. -/
structure Stats where
  fast_path_times : List ℚ
  llm_times : List ℚ
  fast_path_last : ℚ
  llm_last : ℚ
  fast_path_hits : Nat
  fast_path_misses : Nat
  pre_resolve_hits : Nat
  pre_resolve_attempts : Nat
  llm_calls : Nat
  llm_errors : Nat
  tokens_used : Int
  current_date : Nat
  requests_today : Nat
  llm_calls_today : Nat
  tokens_today : Int
  status : String
  last_request_time : Option Int
deriving DecidableEq

/-- `MCPAssistStatistics.__init__`, with `date.today()` passed explicitly. -/
def initStats (today : Nat) : Stats :=
  { fast_path_times := [], llm_times := [], fast_path_last := 0, llm_last := 0,
    fast_path_hits := 0, fast_path_misses := 0, pre_resolve_hits := 0,
    pre_resolve_attempts := 0, llm_calls := 0, llm_errors := 0,
    tokens_used := 0, current_date := today, requests_today := 0,
    llm_calls_today := 0, tokens_today := 0, status := "online",
    last_request_time := none }

/-- `deque(maxlen=100).append`: drop from the front once the capacity is
exceeded. -/
def dequeAppend (maxlen : Nat) (l : List ℚ) (x : ℚ) : List ℚ :=
  let l2 := l ++ [x]
  if maxlen < l2.length then l2.drop (l2.length - maxlen) else l2

/-- `_check_date_rollover`: reset the three daily counters when the calendar
day changed. -/
def check_date_rollover (s : Stats) (today : Nat) : Stats :=
  if today != s.current_date then
    { s with current_date := today, requests_today := 0, llm_calls_today := 0,
             tokens_today := 0 }
  else s

/-- `record_request`. -/
def record_request (s : Stats) (today : Nat) (now : Int) : Stats :=
  let s := check_date_rollover s today
  { s with requests_today := s.requests_today + 1,
           last_request_time := some now }

/-- `record_fast_path_hit`, including `ResponseTimeTracker.record_fast_path`. -/
def record_fast_path_hit (s : Stats) (duration_ms : ℚ) : Stats :=
  { s with fast_path_hits := s.fast_path_hits + 1,
           fast_path_times := dequeAppend 100 s.fast_path_times duration_ms,
           fast_path_last := duration_ms }

/-- `record_fast_path_miss`. -/
def record_fast_path_miss (s : Stats) : Stats :=
  { s with fast_path_misses := s.fast_path_misses + 1 }

/-- `record_pre_resolve_attempt`. -/
def record_pre_resolve_attempt (s : Stats) (success : Bool) : Stats :=
  { s with pre_resolve_attempts := s.pre_resolve_attempts + 1,
           pre_resolve_hits := if success then s.pre_resolve_hits + 1
             else s.pre_resolve_hits }

/-- `record_llm_call`, including the date-rollover check and
`ResponseTimeTracker.record_llm`. -/
def record_llm_call (s : Stats) (today : Nat) (duration_ms : ℚ)
    (tokens : Int) : Stats :=
  let s := check_date_rollover s today
  { s with llm_calls := s.llm_calls + 1,
           llm_calls_today := s.llm_calls_today + 1,
           tokens_used := s.tokens_used + tokens,
           tokens_today := s.tokens_today + tokens,
           llm_times := dequeAppend 100 s.llm_times duration_ms,
           llm_last := duration_ms }

/-- `record_llm_error`. -/
def record_llm_error (s : Stats) : Stats :=
  { s with llm_errors := s.llm_errors + 1 }

/-- Python `round(x)` on an exact rational: round half to even. -/
def pyRound (q : ℚ) : ℤ :=
  let f := q.floor
  let r := q - (f : ℚ)
  if r < 1/2 then f
  else if 1/2 < r then f + 1
  else if f % 2 = 0 then f else f + 1

/-- Python `round(x, 1)`. -/
def pyRound1 (q : ℚ) : ℚ :=
  (pyRound (q * 10) : ℚ) / 10

/-- The `fast_path_rate` property. -/
def fast_path_rate (s : Stats) : ℚ :=
  let total := s.fast_path_hits + s.fast_path_misses
  if total = 0 then 0
  else pyRound1 ((s.fast_path_hits : ℚ) / (total : ℚ) * 100)

/-- The `pre_resolve_rate` property. -/
def pre_resolve_rate (s : Stats) : ℚ :=
  if s.pre_resolve_attempts = 0 then 0
  else pyRound1 ((s.pre_resolve_hits : ℚ) / (s.pre_resolve_attempts : ℚ) * 100)

/-! ## Scoped timing helper (`TimingContext` in `statistics.py`) -/

/-- `TimingContext` state after `__enter__`; the optional token-count callback
is embedded by its outcome: `Except.ok n` for a callback returning `n`,
`Except.error e` for one raising exception `e`. -/
structure TimingContext where
  operation_type : String
  tokens_callback : Option (Except String Int)
  start_time : Option ℚ

/-- `TimingContext.__enter__` at clock value `t0`. -/
def timingEnter (operation_type : String)
    (tokens_callback : Option (Except String Int)) (t0 : ℚ) : TimingContext :=
  { operation_type := operation_type, tokens_callback := tokens_callback,
    start_time := some t0 }

/-- `TimingContext.mark_failed`. -/
def mark_failed (c : TimingContext) : TimingContext :=
  { c with start_time := none }

/-- `TimingContext.__exit__` at clock value `endTime` (with `date.today()`
passed through to `record_llm_call`): compute elapsed milliseconds and record
one sample, unless `mark_failed` cleared the start time; a callback exception
is swallowed, leaving `tokens = 0`. -/
def timingExit (c : TimingContext) (s : Stats) (today : Nat)
    (endTime : ℚ) : Stats :=
  match c.start_time with
  | none => s
  | some t0 =>
    let duration_ms := (endTime - t0) * 1000
    if c.operation_type == "fast_path" then record_fast_path_hit s duration_ms
    else if c.operation_type == "llm" then
      let tokens : Int :=
        match c.tokens_callback with
        | none => 0
        | some (Except.ok n) => n
        | some (Except.error _) => 0
      record_llm_call s today duration_ms tokens
    else s

/-! ## Spec-side rendering of `get_recent_context` (for refinement claims)

The following definitions transcribe the specification's words for the
recent-context text, to be compared with the source-derived
`get_recent_context` above. -/

/-- Spec wording: an `intent_executed` record renders as
`Executed {intent} on {entities}`, an `entities_mentioned` record as
`Referenced entities: {entities}`. -/
def specActionPhrase (a : ActionRecord) : Option String :=
  if a.type == "intent_executed" then
    some ("Executed " ++ a.intent ++ " on " ++ String.intercalate ", " a.entity_ids)
  else if a.type == "entities_mentioned" then
    some ("Referenced entities: " ++ String.intercalate ", " a.entity_ids)
  else none

/-- Spec wording: a turn renders as a `User:` line, an `Assistant:` line, and
an `Actions:` line joining the recognized action summaries with `; ` when at
least one action record is recognized. -/
def specTurnLines (t : Turn) : List String :=
  ["User: " ++ t.user, "Assistant: " ++ t.assistant] ++
    (if t.actions.filterMap specActionPhrase = [] then []
     else ["Actions: " ++
       String.intercalate "; " (t.actions.filterMap specActionPhrase)])

/-- Spec wording (amended): the rendered window is the last
`min(max_turns, length)` turns when `max_turns ≥ 1`, and all turns when
`max_turns = 0`. -/
def specWindow (turns : List Turn) (max_turns : Nat) : List Turn :=
  if max_turns = 0 then turns
  else turns.drop (turns.length - min max_turns turns.length)

/-- Spec wording (amended): a `Recent conversation:` header line followed by
the rendered lines of the windowed turns. -/
def specContext (turns : List Turn) (max_turns : Nat) : String :=
  String.intercalate "\n"
    ("Recent conversation:" :: ((specWindow turns max_turns).map specTurnLines).flatten)

/-! ## Concrete example states used by witnesses and counterexamples -/

/-- An aggregator constructed on day 1. -/
def statsW4 : Stats := initStats 1

/-- An empty history store configured with `max_turns_per_conversation = 0`. -/
def histC3cex : ConversationHistory :=
  { max_history_age := 100, max_turns := 0, conversations := [] }

/-- The turn `add_turn` appends in the `max_turns = 0` counterexample. -/
def turnC3cex : Turn :=
  { timestamp := 0, user := "u", assistant := "a", actions := [] }

/-- An empty history store with ordinary positive limits. -/
def histC3w : ConversationHistory :=
  { max_history_age := 10, max_turns := 2, conversations := [] }

/-- The turn `add_turn` appends in the witness run. -/
def turnC3w : Turn :=
  { timestamp := 6, user := "u", assistant := "a", actions := [] }

/-- A single retained turn for the recent-context examples. -/
def turnC8 : Turn :=
  { timestamp := 50, user := "hi", assistant := "hello", actions := [] }

/-- A history store holding one conversation with one fresh turn. -/
def histC8 : ConversationHistory :=
  { max_history_age := 100, max_turns := 20, conversations := [("c", [turnC8])] }

/-! ## Association-list lemmas -/

theorem alookup_mem {β : Type} {l : List (String × β)} {k : String} {v : β}
    (h : alookup l k = some v) : (k, v) ∈ l := by
  induction l with
  | nil => simp [alookup] at h
  | cons p rest ih =>
    obtain ⟨k', v'⟩ := p
    by_cases hk : k = k'
    · subst hk
      simp [alookup] at h
      simp [h]
    · simp [alookup, hk] at h
      exact List.mem_cons_of_mem _ (ih h)

theorem alookup_isSome_of_mem_keys {β : Type} {l : List (String × β)}
    {x : String} (h : x ∈ l.map Prod.fst) : (alookup l x).isSome := by
  induction l with
  | nil => simp at h
  | cons p rest ih =>
    obtain ⟨k', v'⟩ := p
    simp only [List.map_cons, List.mem_cons] at h
    by_cases hk : x = k'
    · simp [alookup, hk]
    · rcases h with h | h
      · exact absurd h hk
      · simpa [alookup, hk] using ih h

theorem alookup_none_of_not_mem_keys {β : Type} {l : List (String × β)}
    {x : String} (h : x ∉ l.map Prod.fst) : alookup l x = none := by
  induction l with
  | nil => rfl
  | cons p rest ih =>
    obtain ⟨k', v'⟩ := p
    simp only [List.map_cons, List.mem_cons, not_or] at h
    simp [alookup, h.1, ih h.2]

theorem alookup_setKey_self {β : Type} (l : List (String × β)) (k : String)
    (v : β) : alookup (setKey l k v) k = some v := by
  induction l with
  | nil => simp [setKey, alookup]
  | cons p rest ih =>
    obtain ⟨k', v'⟩ := p
    by_cases hk : k = k'
    · simp [setKey, alookup, hk]
    · simp [setKey, alookup, hk, ih]

theorem alookup_setKey_ne {β : Type} {l : List (String × β)} {k i : String}
    (v : β) (h : i ≠ k) : alookup (setKey l k v) i = alookup l i := by
  induction l with
  | nil => simp [setKey, alookup, h]
  | cons p rest ih =>
    obtain ⟨k', v'⟩ := p
    by_cases hk : k = k'
    · subst hk
      simp [setKey, alookup, h]
    · by_cases hi : i = k'
      · simp [setKey, alookup, hk, hi]
      · simp [setKey, alookup, hk, hi, ih]

theorem alookup_removeKey_ne {β : Type} {l : List (String × β)} {k i : String}
    (h : i ≠ k) : alookup (removeKey l k) i = alookup l i := by
  induction l with
  | nil => rfl
  | cons p rest ih =>
    obtain ⟨k', v'⟩ := p
    by_cases hk : k = k'
    · subst hk
      simp [removeKey, alookup, h]
    · by_cases hi : i = k'
      · simp [removeKey, alookup, hk, hi]
      · simp [removeKey, alookup, hk, hi, ih]

theorem mem_keys_setKey {β : Type} {l : List (String × β)} {k x : String}
    {v : β} (h : x ∈ (setKey l k v).map Prod.fst) :
    x ∈ l.map Prod.fst ∨ x = k := by
  induction l with
  | nil => simpa [setKey] using h
  | cons p rest ih =>
    obtain ⟨k', v'⟩ := p
    by_cases hk : k = k'
    · subst hk
      simp only [setKey, beq_self_eq_true, if_true, List.map_cons,
        List.mem_cons] at h
      simp only [List.map_cons, List.mem_cons]
      tauto
    · have hbeq : (k == k') = false := by simp [hk]
      simp only [setKey, hbeq, Bool.false_eq_true, if_false, List.map_cons,
        List.mem_cons] at h
      simp only [List.map_cons, List.mem_cons]
      rcases h with h | h
      · tauto
      · rcases ih h with h' | h'
        · tauto
        · tauto

theorem nodup_keys_setKey {β : Type} {l : List (String × β)} {k : String}
    {v : β} (h : (l.map Prod.fst).Nodup) :
    ((setKey l k v).map Prod.fst).Nodup := by
  induction l with
  | nil => simp [setKey]
  | cons p rest ih =>
    obtain ⟨k', v'⟩ := p
    simp only [List.map_cons, List.nodup_cons] at h
    by_cases hk : k = k'
    · subst hk
      simp only [setKey, beq_self_eq_true, if_true, List.map_cons,
        List.nodup_cons]
      exact h
    · have hbeq : (k == k') = false := by simp [hk]
      simp only [setKey, hbeq, Bool.false_eq_true, if_false, List.map_cons,
        List.nodup_cons]
      refine ⟨?_, ih h.2⟩
      intro hmem
      rcases mem_keys_setKey hmem with h' | h'
      · exact h.1 h'
      · exact hk h'.symm

theorem alookup_removeKey_self {β : Type} {l : List (String × β)} {k : String}
    (h : (l.map Prod.fst).Nodup) : alookup (removeKey l k) k = none := by
  induction l with
  | nil => rfl
  | cons p rest ih =>
    obtain ⟨k', v'⟩ := p
    simp only [List.map_cons, List.nodup_cons] at h
    by_cases hk : k = k'
    · subst hk
      simp only [removeKey, beq_self_eq_true, if_true]
      exact alookup_none_of_not_mem_keys h.1
    · have hbeq : (k == k') = false := by simp [hk]
      simp only [removeKey, hbeq, Bool.false_eq_true, if_false]
      simp [alookup, hk, ih h.2]

/-- Unfolding equation for `validate_service_parameters` in terms of the list
of required names absent from the provided keys. -/
theorem validate_service_parameters_eq (d s : String) (p : List String) :
    validate_service_parameters d s p =
      (if (get_service_parameters d s).required.filter
            (fun x => !p.contains x) = []
       then (true, "Parameters valid")
       else (false, missingParamsMsg d s
         ((get_service_parameters d s).required.filter
           (fun x => !p.contains x)))) := by
  simp only [validate_service_parameters]
  cases hm : (get_service_parameters d s).required.filter
      (fun x => !p.contains x) with
  | nil => simp
  | cons y ys => simp

/-! ## Registry data facts -/

/-- In every read-only registry domain, no global alias target is an allowed
service (checked over the concrete tables). -/
theorem readonly_services_miss_alias_targets :
    ∀ p ∈ DOMAIN_REGISTRY, p.2.type = TYPE_READ_ONLY →
      ∀ q ∈ ACTION_ALIASES, q.2 ∉ p.2.services := by decide

/-! ## Claim theorems -/

/-- Claim C1 (amended): for every registry domain whose classification is not
read-only and every service in its allowed-services set,
`validate_domain_action` succeeds with exactly that service name unchanged. -/
theorem validate_action_identity (d s : String) (info : DomainInfo)
    (hd : get_domain_info d = some info)
    (hro : info.type ≠ TYPE_READ_ONLY)
    (hs : s ∈ info.services) :
    validate_domain_action d s = (true, s) := by
  have hb : (info.type == TYPE_READ_ONLY) = false := by simp [hro]
  simp [validate_domain_action, map_action_to_service, hd, hb, hs]

/-- Claim C1 counterexample: `weather` is in the registry with
`get_forecast` among its services, yet `validate_domain_action` rejects it
(the read-only check fires before the service check). -/
theorem validate_action_identity_cex :
    get_domain_info "weather" = some weather_info ∧
    "get_forecast" ∈ weather_info.services ∧
    (validate_domain_action "weather" "get_forecast").fst = false :=
  ⟨rfl, by decide, by decide⟩

/-- Claim C1 witness: a concrete non-read-only instance. -/
theorem validate_action_identity_witness :
    get_domain_info "switch" = some switch_info ∧
    switch_info.type ≠ TYPE_READ_ONLY ∧
    "turn_on" ∈ switch_info.services ∧
    validate_domain_action "switch" "turn_on" = (true, "turn_on") :=
  ⟨rfl, by decide, by decide,
    validate_action_identity "switch" "turn_on" switch_info rfl (by decide)
      (by decide)⟩

/-- Claim C2 (amended): for every global alias `a → b` and every registry
domain whose allowed-services set does not already contain `a` itself,
`validate_domain_action d a` succeeds iff `b` is in the domain's service set,
and on success yields `b`. -/
theorem validate_action_alias (a b d : String) (info : DomainInfo)
    (ha : alookup ACTION_ALIASES a = some b)
    (hd : get_domain_info d = some info)
    (hna : a ∉ info.services) :
    ((validate_domain_action d a).fst = true ↔ b ∈ info.services) ∧
    ((validate_domain_action d a).fst = true →
      (validate_domain_action d a).snd = b) := by
  by_cases hro : info.type = TYPE_READ_ONLY
  · have hb : (info.type == TYPE_READ_ONLY) = true := by simp [hro]
    have hnb : b ∉ info.services :=
      readonly_services_miss_alias_targets (d, info) (alookup_mem hd) hro
        (a, b) (alookup_mem ha)
    have hfst : (validate_domain_action d a).fst = false := by
      simp [validate_domain_action, hd, hb]
    refine ⟨?_, ?_⟩
    · rw [hfst]
      simp [hnb]
    · intro hf
      rw [hfst] at hf
      exact absurd hf (by simp)
  · have hb : (info.type == TYPE_READ_ONLY) = false := by simp [hro]
    have hmap : map_action_to_service d a = b := by
      simp [map_action_to_service, hd, hna, resolveAlias, ha]
    by_cases hmem : b ∈ info.services
    · have hval : validate_domain_action d a = (true, b) := by
        simp [validate_domain_action, hd, hb, hmap, hmem]
      simp [hval, hmem]
    · have hfst : (validate_domain_action d a).fst = false := by
        simp only [validate_domain_action, hd]
        rw [hb]
        simp only [Bool.false_eq_true, if_false, hmap]
        have hcb : info.services.contains b = false := by simp [hmem]
        rw [hcb]
        simp only [Bool.false_eq_true, if_false]
        split <;> rfl
      refine ⟨?_, ?_⟩
      · rw [hfst]
        simp [hmem]
      · intro hf
        rw [hfst] at hf
        exact absurd hf (by simp)

/-- Claim C2 counterexample: the global alias `pause → media_pause` with the
`vacuum` domain: `media_pause` is not a vacuum service, yet validation
succeeds (yielding `pause`, not the canonical name), because `pause` happens
to be a literal vacuum service. -/
theorem validate_action_alias_cex :
    alookup ACTION_ALIASES "pause" = some "media_pause" ∧
    get_domain_info "vacuum" = some vacuum_info ∧
    "media_pause" ∉ vacuum_info.services ∧
    validate_domain_action "vacuum" "pause" = (true, "pause") :=
  ⟨rfl, rfl, by decide, by decide⟩

/-- Claim C2 witness: a concrete alias instance on a domain not containing the
alias word itself. -/
theorem validate_action_alias_witness :
    alookup ACTION_ALIASES "activate" = some "turn_on" ∧
    get_domain_info "switch" = some switch_info ∧
    "activate" ∉ switch_info.services ∧
    (validate_domain_action "switch" "activate").fst = true ∧
    (validate_domain_action "switch" "activate").snd = "turn_on" := by
  have h := validate_action_alias "activate" "turn_on" "switch" switch_info
    rfl rfl (by decide)
  exact ⟨rfl, rfl, by decide, h.1.mpr (by decide), h.2 (h.1.mpr (by decide))⟩

/-- Claim C4: recording an LLM call on a new calendar day rolls the daily
counters over — the daily LLM and token counters reflect only this call,
today's request count is zero, the stored date advances, and the cumulative
totals keep counting. -/
theorem record_llm_call_rollover (s : Stats) (today : Nat) (dur : ℚ)
    (tokens : Int) (hdate : today ≠ s.current_date) :
    (record_llm_call s today dur tokens).llm_calls_today = 1 ∧
    (record_llm_call s today dur tokens).tokens_today = tokens ∧
    (record_llm_call s today dur tokens).requests_today = 0 ∧
    (record_llm_call s today dur tokens).current_date = today ∧
    (record_llm_call s today dur tokens).llm_calls = s.llm_calls + 1 ∧
    (record_llm_call s today dur tokens).tokens_used = s.tokens_used + tokens := by
  have hb : (today != s.current_date) = true := by simp [hdate]
  simp [record_llm_call, check_date_rollover, hb]

/-- Claim C4 witness: a concrete rollover from day 1 to day 2. -/
theorem record_llm_call_rollover_witness :
    (2 : Nat) ≠ statsW4.current_date ∧
    ((record_llm_call statsW4 2 5 7).llm_calls_today = 1 ∧
     (record_llm_call statsW4 2 5 7).tokens_today = 7 ∧
     (record_llm_call statsW4 2 5 7).requests_today = 0 ∧
     (record_llm_call statsW4 2 5 7).current_date = 2 ∧
     (record_llm_call statsW4 2 5 7).llm_calls = statsW4.llm_calls + 1 ∧
     (record_llm_call statsW4 2 5 7).tokens_used = statsW4.tokens_used + 7) :=
  ⟨by decide, record_llm_call_rollover statsW4 2 5 7 (by decide)⟩

/-- Claim C5: the two derived rates are `0.0` on a zero denominator and
otherwise `round(100 * hits / total, 1)`; after three recorded fast-path hits
and one miss the fast-path rate is `75.0`. -/
theorem rate_properties (s : Stats) :
    fast_path_rate s =
      (if s.fast_path_hits + s.fast_path_misses = 0 then 0
       else pyRound1 (100 * (s.fast_path_hits : ℚ) /
         ((s.fast_path_hits : ℚ) + (s.fast_path_misses : ℚ)))) ∧
    pre_resolve_rate s =
      (if s.pre_resolve_attempts = 0 then 0
       else pyRound1 (100 * (s.pre_resolve_hits : ℚ) /
         (s.pre_resolve_attempts : ℚ))) ∧
    fast_path_rate (record_fast_path_miss (record_fast_path_hit
      (record_fast_path_hit (record_fast_path_hit (initStats 0) 10) 12) 8))
      = 75 := by
  refine ⟨?_, ?_, ?_⟩
  case refine_3 =>
    have h1 : (record_fast_path_miss (record_fast_path_hit
        (record_fast_path_hit (record_fast_path_hit (initStats 0) 10) 12)
          8)).fast_path_hits = 3 := rfl
    have h2 : (record_fast_path_miss (record_fast_path_hit
        (record_fast_path_hit (record_fast_path_hit (initStats 0) 10) 12)
          8)).fast_path_misses = 1 := rfl
    have h75 : ((3 : Nat) : ℚ) / (((3 : Nat) + (1 : Nat) : Nat) : ℚ) * 100
        = 75 := by norm_num
    have h750 : Rat.floor 750 = 750 := rfl
    simp only [fast_path_rate, h1, h2, h75]
    norm_num [pyRound1, pyRound, h750]
  · simp only [fast_path_rate]
    by_cases h : s.fast_path_hits + s.fast_path_misses = 0
    · simp [h]
    · rw [if_neg h, if_neg h]
      congr 1
      push_cast
      ring
  · simp only [pre_resolve_rate]
    by_cases h : s.pre_resolve_attempts = 0
    · simp [h]
    · rw [if_neg h, if_neg h]
      congr 1
      ring

/-- Claim C6: parameter validation rejects exactly when some required
parameter name is absent, reporting precisely the absent required names; the
verdict depends only on which required names are provided (optional and
unknown extras never matter); with the concrete cover example. -/
theorem validate_parameters_missing (d s : String) (p : List String) :
    validate_service_parameters d s p =
      (if (get_service_parameters d s).required.filter
            (fun x => !p.contains x) = []
       then (true, "Parameters valid")
       else (false, missingParamsMsg d s
         ((get_service_parameters d s).required.filter
           (fun x => !p.contains x)))) ∧
    (∀ q : List String,
      (∀ r ∈ (get_service_parameters d s).required, r ∈ p ↔ r ∈ q) →
      validate_service_parameters d s p = validate_service_parameters d s q) ∧
    validate_service_parameters "cover" "set_cover_position" [] =
      (false, missingParamsMsg "cover" "set_cover_position" ["position"]) ∧
    validate_service_parameters "cover" "set_cover_position" ["position"] =
      (true, "Parameters valid") := by
  refine ⟨validate_service_parameters_eq d s p, ?_, by decide, by decide⟩
  · intro q hq
    have hfe : (get_service_parameters d s).required.filter
        (fun x => !p.contains x) =
      (get_service_parameters d s).required.filter
        (fun x => !q.contains x) := by
      apply List.filter_congr
      intro r hr
      have hiff := hq r hr
      by_cases hrp : r ∈ p
      · simp [hrp, hiff.mp hrp]
      · have hrq : r ∉ q := fun hh => hrp (hiff.mpr hh)
        simp [hrp, hrq]
    rw [validate_service_parameters_eq d s p, validate_service_parameters_eq d s q,
      hfe]

/-- Claim C6 witness: an unknown extra key does not change the verdict. -/
theorem validate_parameters_missing_witness :
    validate_service_parameters "cover" "set_cover_position"
        ["position", "extra"] =
      validate_service_parameters "cover" "set_cover_position" ["position"] :=
  (validate_parameters_missing "cover" "set_cover_position"
    ["position", "extra"]).2.1 ["position"] (by decide)

/-- Claim C7: for an unknown domain, validation is rejected with a
`DomainNotFound` message; the suggestion list has at most three entries, each
a registry domain related to the input by substring containment in either
direction, and the generic message carries no suggestions when none match. -/
theorem validate_unknown_domain (d a : String)
    (hd : get_domain_info d = none) :
    (validate_domain_action d a).fst = false ∧
    ((domain_suggestions d).take 3).length ≤ 3 ∧
    (∀ x ∈ (domain_suggestions d).take 3,
      (get_domain_info x).isSome ∧
        (strContains x d || strContains d x) = true) ∧
    (domain_suggestions d ≠ [] →
      (validate_domain_action d a).snd =
        "Domain \x27" ++ d ++ "\x27 not supported. Did you mean: " ++
          String.intercalate ", " ((domain_suggestions d).take 3) ++ "?") ∧
    (domain_suggestions d = [] →
      (validate_domain_action d a).snd =
        "Domain \x27" ++ d ++ "\x27 not supported. Use \x27list_domains\x27 to see available domains.") := by
  refine ⟨?_, ?_, ?_, ?_, ?_⟩
  · simp only [validate_domain_action, hd]
    cases hie : (domain_suggestions d).isEmpty <;> simp [hie]
  · rw [List.length_take]
    omega
  · intro x hx
    have hx' : x ∈ domain_suggestions d := List.mem_of_mem_take hx
    have hx'' := List.mem_filter.mp hx'
    exact ⟨alookup_isSome_of_mem_keys hx''.1, hx''.2⟩
  · intro hne
    have hie : (domain_suggestions d).isEmpty = false := by
      cases h' : domain_suggestions d with
      | nil => exact absurd h' hne
      | cons x xs => rfl
    simp [validate_domain_action, hd, hie]
  · intro hnil
    have hie : (domain_suggestions d).isEmpty = true := by simp [hnil]
    simp [validate_domain_action, hd, hie]

/-- Claim C7 witness: a concrete unknown domain with no substring-related
registry domain. -/
theorem validate_unknown_domain_witness :
    get_domain_info "not_a_domain" = none ∧
    domain_suggestions "not_a_domain" = [] ∧
    (validate_domain_action "not_a_domain" "x").fst = false ∧
    (validate_domain_action "not_a_domain" "x").snd =
      "Domain \x27" ++ "not_a_domain" ++ "\x27 not supported. Use \x27list_domains\x27 to see available domains." := by
  have h := validate_unknown_domain "not_a_domain" "x" rfl
  exact ⟨rfl, by decide, h.1, h.2.2.2.2 (by decide)⟩

/-- Claim C9: releasing a timing context after `mark_failed` records nothing;
otherwise release records exactly one sample — a fast-path hit for the
fast-path kind, an LLM call for the LLM kind, with a raising token callback
swallowed and tokens defaulting to zero. -/
theorem timing_context_recording (c : TimingContext) (s : Stats) (today : Nat)
    (endTime t0 : ℚ) (cb : Option (Except String Int)) (n : Int) (e : String) :
    timingExit (mark_failed c) s today endTime = s ∧
    timingExit (timingEnter "fast_path" cb t0) s today endTime =
      record_fast_path_hit s ((endTime - t0) * 1000) ∧
    timingExit (timingEnter "llm" none t0) s today endTime =
      record_llm_call s today ((endTime - t0) * 1000) 0 ∧
    timingExit (timingEnter "llm" (some (Except.ok n)) t0) s today endTime =
      record_llm_call s today ((endTime - t0) * 1000) n ∧
    timingExit (timingEnter "llm" (some (Except.error e)) t0) s today endTime =
      record_llm_call s today ((endTime - t0) * 1000) 0 :=
  ⟨rfl, rfl, rfl, rfl, rfl⟩

/-- Claim C10: parameter validation is permissive — an unknown domain, or a
known domain whose service has no parameter entry, validates successfully for
every provided mapping, and the function only ever returns success or a
missing-required-parameters rejection (never an unknown-domain or
unknown-service report). -/
theorem validate_parameters_permissive (d s : String) (p : List String) :
    (get_domain_info d = none →
      validate_service_parameters d s p = (true, "Parameters valid")) ∧
    (∀ info, get_domain_info d = some info →
      alookup info.parameters s = none →
      validate_service_parameters d s p = (true, "Parameters valid")) ∧
    (validate_service_parameters d s p = (true, "Parameters valid") ∨
      ((validate_service_parameters d s p).fst = false ∧
       (validate_service_parameters d s p).snd = missingParamsMsg d s
         ((get_service_parameters d s).required.filter
           (fun x => !p.contains x)))) := by
  refine ⟨?_, ?_, ?_⟩
  · intro hd
    simp [validate_service_parameters, get_service_parameters, hd]
  · intro info hd hs
    simp [validate_service_parameters, get_service_parameters, hd, hs]
  · rw [validate_service_parameters_eq d s p]
    cases hm : (get_service_parameters d s).required.filter
      (fun x => !p.contains x) with
    | nil =>
      left
      simp
    | cons y ys =>
      right
      simp

/-- Claim C10 witness: a concrete unknown domain validates any parameters. -/
theorem validate_parameters_permissive_witness :
    get_domain_info "hallway" = none ∧
    validate_service_parameters "hallway" "turn_on" ["x"] =
      (true, "Parameters valid") :=
  ⟨rfl, (validate_parameters_permissive "hallway" "turn_on" ["x"]).1 rfl⟩

/-! ## Eviction lemmas -/

theorem prune_suffix (h : ConversationHistory) (now : Int)
    (conv : List Turn) :
    prune h now conv <:+ conv.filter
      (fun t => decide (now - h.max_history_age < t.timestamp)) := by
  simp only [prune]
  split
  · simp only [pySliceLast]
    split
    · exact List.suffix_refl _
    · exact List.drop_suffix _ _
  · exact List.suffix_refl _

theorem prune_mem (h : ConversationHistory) (now : Int) (conv : List Turn)
    (t : Turn) (ht : t ∈ prune h now conv) :
    now - h.max_history_age < t.timestamp := by
  have hsub := (prune_suffix h now conv).sublist.subset ht
  exact of_decide_eq_true (List.mem_filter.mp hsub).2

theorem prune_length (h : ConversationHistory) (now : Int) (conv : List Turn)
    (hmax : 0 < h.max_turns) :
    (prune h now conv).length ≤ h.max_turns := by
  simp only [prune]
  split
  case isTrue hlt =>
    simp only [pySliceLast]
    rw [if_neg (by omega)]
    rw [List.length_drop]
    omega
  case isFalse hlt => omega

/-- Full behavioural specification of one `_cleanup_conversation` pass on a
store with unique keys and no empty entries: the touched conversation keeps
only fresh turns, at most `max_turns` of them, as a suffix of the age-filtered
original list; other conversations are untouched; no entry is empty. -/
theorem cleanup_spec (h : ConversationHistory) (c : String) (now : Int)
    (hmax : 0 < h.max_turns)
    (hnd : (h.conversations.map Prod.fst).Nodup)
    (hne : ∀ i l, alookup h.conversations i = some l → l ≠ []) :
    ∀ i l, alookup (cleanup_conversation h c now).conversations i = some l →
      l ≠ [] ∧
      (i ≠ c → alookup h.conversations i = some l) ∧
      (i = c →
        (∀ t ∈ l, now - h.max_history_age < t.timestamp) ∧
        l.length ≤ h.max_turns ∧
        l <:+ ((alookup h.conversations c).getD []).filter
          (fun t => decide (now - h.max_history_age < t.timestamp))) := by
  intro i l hl
  cases halc : alookup h.conversations c with
  | none =>
    have hcl : cleanup_conversation h c now = h := by
      unfold cleanup_conversation
      rw [halc]
    rw [hcl] at hl
    refine ⟨hne i l hl, fun _ => hl, fun hic => ?_⟩
    subst hic
    rw [halc] at hl
    cases hl
  | some conv =>
    have hcl : cleanup_conversation h c now =
        (if (prune h now conv).isEmpty then
          { h with conversations := removeKey h.conversations c }
         else
          { h with
            conversations := setKey h.conversations c (prune h now conv) }) := by
      unfold cleanup_conversation
      rw [halc]
    rw [hcl] at hl
    by_cases hemp : (prune h now conv).isEmpty
    · rw [if_pos hemp] at hl
      have hl' : alookup (removeKey h.conversations c) i = some l := hl
      by_cases hic : i = c
      · subst hic
        rw [alookup_removeKey_self hnd] at hl'
        cases hl'
      · have hli : alookup h.conversations i = some l := by
          rw [alookup_removeKey_ne hic] at hl'
          exact hl'
        exact ⟨hne i l hli, fun _ => hli, fun hic' => absurd hic' hic⟩
    · rw [if_neg hemp] at hl
      have hl' : alookup (setKey h.conversations c (prune h now conv)) i
          = some l := hl
      by_cases hic : i = c
      · subst hic
        rw [alookup_setKey_self] at hl'
        injection hl' with hl2
        subst hl2
        refine ⟨?_, fun hcc => absurd rfl hcc, fun _ => ?_⟩
        · intro hnil
          exact hemp (by rw [hnil]; rfl)
        · exact ⟨fun t ht => prune_mem h now conv t ht,
            prune_length h now conv hmax, prune_suffix h now conv⟩
      · have hli : alookup h.conversations i = some l := by
          rw [alookup_setKey_ne _ hic] at hl'
          exact hl'
        exact ⟨hne i l hli, fun _ => hli, fun hic' => absurd hic' hic⟩

/-- Claim C3 (amended): provided `max_turns_per_conversation ≥ 1`, after
`add_turn` (and after the eviction run by `get_history`) every retained turn
of the touched conversation is younger than `max_history_age`, its sequence
holds at most `max_turns` turns and is a suffix of the age-filtered
chronological list (the most recent turns in insertion order), and no
conversation id maps to an empty sequence; concretely, adding 25 turns with
`max_turns = 20` leaves exactly the most recent 20, oldest first. -/
theorem history_invariants (h : ConversationHistory) (c : String) (now : Int)
    (u a : String) (acts : List ActionRecord)
    (hmax : 0 < h.max_turns)
    (hnd : (h.conversations.map Prod.fst).Nodup)
    (hne : ∀ i l, alookup h.conversations i = some l → l ≠ []) :
    (∀ i l, alookup (add_turn h c now u a acts).conversations i = some l →
      l ≠ [] ∧
      (i = c →
        (∀ t ∈ l, now - h.max_history_age < t.timestamp) ∧
        l.length ≤ h.max_turns ∧
        l <:+ (((alookup h.conversations c).getD []) ++
          [mkTurn now u a acts]).filter
          (fun t => decide (now - h.max_history_age < t.timestamp)))) ∧
    (∀ i l, alookup (get_history h c now).2.conversations i = some l →
      l ≠ [] ∧
      (i = c →
        (∀ t ∈ l, now - h.max_history_age < t.timestamp) ∧
        l.length ≤ h.max_turns ∧
        l <:+ ((alookup h.conversations c).getD []).filter
          (fun t => decide (now - h.max_history_age < t.timestamp)))) ∧
    alookup ((List.range 25).foldl (fun st k =>
        add_turn st "conv" (Int.ofNat k) ("u" ++ toString k)
          ("a" ++ toString k) [])
        ({ max_history_age := 1000000, max_turns := 20, conversations := [] } :
          ConversationHistory)).conversations "conv" =
      some (((List.range 25).drop 5).map (fun k =>
        ({ timestamp := Int.ofNat k, user := "u" ++ toString k,
           assistant := "a" ++ toString k, actions := [] } : Turn))) := by
  refine ⟨?_, ?_, by decide⟩
  · intro i l hl
    have hne2 : ∀ j m,
        alookup (withTurn h c now u a acts).conversations j = some m →
        m ≠ [] := by
      intro j m hj
      have hj' : alookup (setKey h.conversations c
          (((alookup h.conversations c).getD []) ++ [mkTurn now u a acts])) j
          = some m := hj
      by_cases hjc : j = c
      · subst hjc
        rw [alookup_setKey_self] at hj'
        injection hj' with hj2
        subst hj2
        simp
      · rw [alookup_setKey_ne _ hjc] at hj'
        exact hne j m hj'
    have hl' : alookup (cleanup_conversation (withTurn h c now u a acts) c
        now).conversations i = some l := hl
    have hspec := cleanup_spec (withTurn h c now u a acts) c now hmax
      (nodup_keys_setKey hnd) hne2 i l hl'
    refine ⟨hspec.1, fun hic => ?_⟩
    have h3 := hspec.2.2 hic
    have hsk : alookup (withTurn h c now u a acts).conversations c =
        some (((alookup h.conversations c).getD []) ++
          [mkTurn now u a acts]) := alookup_setKey_self _ _ _
    rw [hsk, Option.getD_some] at h3
    exact h3
  · intro i l hl
    cases halc : alookup h.conversations c with
    | none =>
      have hgh : (get_history h c now).2 = h := by
        unfold get_history
        rw [halc]
      rw [hgh] at hl
      refine ⟨hne i l hl, fun hic => ?_⟩
      subst hic
      rw [halc] at hl
      cases hl
    | some conv =>
      have hgh : (get_history h c now).2 = cleanup_conversation h c now := by
        unfold get_history
        rw [halc]
      rw [hgh] at hl
      have hspec := cleanup_spec h c now hmax hnd hne i l hl
      refine ⟨hspec.1, fun hic => ?_⟩
      have h3 := hspec.2.2 hic
      rw [halc] at h3
      exact h3

/-- Claim C3 counterexample: with `max_turns_per_conversation = 0`, Python's
`conversation[-0:]` slice keeps the whole list, so after one `add_turn` the
conversation holds 1 turn, exceeding the limit of 0. -/
theorem history_invariants_cex :
    alookup (add_turn histC3cex "c" 0 "u" "a" []).conversations "c" =
      some [turnC3cex] ∧
    ¬ ([turnC3cex].length ≤ histC3cex.max_turns) := by
  exact ⟨by decide, by decide⟩

/-- Claim C3 witness: a concrete store with positive limits. -/
theorem history_invariants_witness :
    0 < histC3w.max_turns ∧
    alookup (add_turn histC3w "c" 6 "u" "a" []).conversations "c" =
      some [turnC3w] ∧
    [turnC3w].length ≤ histC3w.max_turns := by
  refine ⟨by decide, by decide, ?_⟩
  exact ((((history_invariants histC3w "c" 6 "u" "a" [] (by decide) (by decide)
    (fun _ _ hl => Option.noConfusion hl)).1 "c" [turnC3w]
      (by decide)).2 rfl)).2.1

/-! ## Recent-context rendering lemmas -/

theorem window_eq (ts : List Turn) (mt : Nat) (hne : ts ≠ []) :
    (if mt < ts.length then pySliceLast mt ts else ts) = specWindow ts mt := by
  unfold specWindow pySliceLast
  by_cases h0 : mt = 0
  · subst h0
    have hlen : 0 < ts.length := List.length_pos.mpr hne
    simp [hlen]
  · by_cases hlt : mt < ts.length
    · rw [if_pos hlt, if_neg h0, if_neg h0]
      congr 1
      omega
    · rw [if_neg hlt, if_neg h0]
      have hmin : ts.length - min mt ts.length = 0 := by omega
      rw [hmin, List.drop_zero]

theorem renderTurnLines_eq_spec (t : Turn) :
    renderTurnLines t = specTurnLines t := by
  have hra : renderActionSummary = specActionPhrase := rfl
  unfold renderTurnLines specTurnLines
  rw [hra]
  cases hacts : t.actions with
  | nil => simp
  | cons x xs =>
    simp only [List.isEmpty_cons, Bool.false_eq_true, if_false]
    cases hsum : (x :: xs).filterMap specActionPhrase with
    | nil => simp
    | cons y ys => simp

/-- Claim C8 (amended): `get_recent_context` returns the empty string exactly
when the id is absent from the store (embedded as `get_history` producing an
empty list); it propagates the `KeyError` raised by `get_history` when
eviction empties the conversation; and otherwise its text is a
`Recent conversation:` header followed, for each turn of the window — the
last `min(max_turns, length)` turns when `max_turns ≥ 1`, all turns when
`max_turns = 0` — by a `User:` line, an `Assistant:` line, and an `Actions:`
line only when the turn carries recognized action records. -/
theorem get_recent_context_spec (h : ConversationHistory) (c : String)
    (now : Int) (mt : Nat) :
    ((get_history h c now).1 = none →
      (get_recent_context h c now mt).1 = none) ∧
    ((get_history h c now).1 = some [] →
      (get_recent_context h c now mt).1 = some "") ∧
    (∀ ts, (get_history h c now).1 = some ts → ts ≠ [] →
      (get_recent_context h c now mt).1 = some (specContext ts mt)) := by
  rcases hgh : get_history h c now with ⟨o, h2⟩
  refine ⟨?_, ?_, ?_⟩
  · intro hg
    simp only at hg
    subst hg
    unfold get_recent_context
    rw [hgh]
  · intro hg
    simp only at hg
    subst hg
    unfold get_recent_context
    rw [hgh]
    simp
  · intro ts hg hnil
    simp only at hg
    subst hg
    unfold get_recent_context
    rw [hgh]
    have hie : ts.isEmpty = false := by
      cases ts with
      | nil => exact absurd rfl hnil
      | cons x xs => rfl
    simp only [hie, Bool.false_eq_true, if_false]
    rw [window_eq ts mt hnil]
    unfold specContext
    have hfun : renderTurnLines = specTurnLines :=
      funext renderTurnLines_eq_spec
    rw [hfun]

/-- Claim C8 counterexample: with one retained turn and `max_turns = 0` the
claim prescribes rendering the last `min(0, 1) = 0` turns — empty text — but
the code emits a `Recent conversation:` header plus every turn. -/
theorem get_recent_context_spec_cex :
    (get_recent_context histC8 "c" 60 0).1 =
      some ("Recent conversation:" ++ "\n" ++ "User: hi" ++ "\n" ++
        "Assistant: hello") ∧
    ("Recent conversation:" ++ "\n" ++ "User: hi" ++ "\n" ++
      "Assistant: hello") ≠ "" := by
  exact ⟨by decide, by decide⟩

/-- Claim C8 witness: the rendered text of one fresh retained turn. -/
theorem get_recent_context_spec_witness :
    (get_history histC8 "c" 60).1 = some [turnC8] ∧
    (get_recent_context histC8 "c" 60 3).1 = some (specContext [turnC8] 3) := by
  refine ⟨by decide, ?_⟩
  exact (get_recent_context_spec histC8 "c" 60 3).2.2 [turnC8] (by decide)
    (by decide)
